import Mathlib

/-!
# Verification of the lan-mouse remote input data plane

Shallow embedding of the two core source files of the repository:

* `src/server/network_task.rs` — the UDP network transport: the send loop
  (`udp_sender` / `send_event`) and the live port-rebind branch of the
  `udp_task` select loop.
* `input-emulation/src/libei.rs` — the libei input emulation: the portal
  session negotiation loop (`get_ei_fd`), the device-capability registry
  (`Devices`), the event translator (`LibeiEmulation::consume`), and the
  protocol event loop (`ei_event_handler`).

Machine integers (u16 ports, u32 serials/keys/buttons, u64 timestamps) are
modelled as `Nat`; no arithmetic is performed on them in the modelled code,
so no overflow reduction is needed.  Floating point values (`f32`/`f64`
motion deltas and scroll values) are modelled by `Int` carriers and the
`as f32` narrowing cast by the marker function `asF32`: no claim depends on
rounding behaviour, only on which value is routed into which argument
position.  I/O outcomes (socket binds, sends, connection flushes, portal
round-trips) are supplied as explicit oracle inputs, so every definition is
executable.
-/

namespace LanMouse

/-! ## Generic event model (`input_event` crate as used by the core) -/

/-- Marker for the `as f32` narrowing cast in
`LibeiEmulation::consume`; rounding is not modelled (no claim depends on
it), only the routing of the value. -/
def asF32 (v : Int) : Int := v

/-- `PointerEvent` — the pointer family of the generic `Event` union. -/
inductive PointerEvent where
  | motion (time : Nat) (relative_x relative_y : Int)
  | buttonEv (time : Nat) (button : Nat) (state : Nat)
  | axis (time : Nat) (axis : Nat) (value : Int)
  | axisDiscrete120 (axis : Nat) (value : Int)
  | frameEv
  deriving DecidableEq, Repr

/-- `KeyboardEvent` — the keyboard family of the generic `Event` union. -/
inductive KeyboardEvent where
  | keyEv (time : Nat) (key : Nat) (state : Nat)
  | modifiers (depressed latched locked group : Nat)
  deriving DecidableEq, Repr

/-- The generic `Event` union.  `other` stands for the further variants
matched by the `_ => {}` arm of `LibeiEmulation::consume`. -/
inductive Event where
  | pointer (p : PointerEvent)
  | keyboard (k : KeyboardEvent)
  | other
  deriving DecidableEq, Repr

/-! ## Network transport (`src/server/network_task.rs`) -/

/-- A bound UDP socket: the local port it is bound to and an identity tag
distinguishing distinct socket instances (a fresh instance results from
every successful `UdpSocket::bind`). -/
structure UdpSock where
  port : Nat
  id : Nat
  deriving DecidableEq, Repr

/-- `FrontendEvent` as used by the network task: the
`PortChanged(port, optional error)` notification. -/
inductive FrontendEvent where
  | portChanged (port : Nat) (msg : Option String)
  deriving DecidableEq, Repr

/-- State owned by the `udp_task` loop: the current socket and the
`server.port` cell. -/
structure NetState where
  socket : UdpSock
  serverPort : Nat
  deriving DecidableEq, Repr

/-- The port-rebind branch of the `udp_task` select loop
(`network_task.rs` lines 40–65).  `port` is the port received on the
control channel; `bindResult` is the outcome of
`UdpSocket::bind(0.0.0.0:port)` — on success it yields the identity tag of
the freshly bound socket, on failure the I/O error message.  Returns the
new task state and the list of frontend notifications sent. -/
def handlePortRequest (st : NetState) (port : Nat)
    (bindResult : Except String Nat) : NetState × List FrontendEvent :=
  if st.socket.port = port then
    (st, [])
  else
    match bindResult with
    | .ok newId =>
        ({ socket := ⟨port, newId⟩, serverPort := port },
         [.portChanged port none])
    | .error e =>
        (st, [.portChanged st.socket.port (some ("could not change port: " ++ e))])

/-- An observable action of the send loop: the single `try_send_to`
attempt of `send_event` (carrying the socket identity, the encoded bytes
and the destination), or the `log::warn` emitted when it fails. -/
inductive SendAction where
  | attempt (sockId : Nat) (data : List Nat) (addr : Nat)
  | logWarn (msg : String)
  deriving DecidableEq, Repr

/-- The `udp_sender` loop (`network_task.rs` lines 82–92) run over a finite
prefix of the outbound channel.  Each channel element is the popped
`(event, addr)` pair together with the oracle outcome of the single
`try_send_to` call made for it (`Ok(bytes written)` or an error message).
`encode` models `Vec::<u8>::from(&event)` from the external `input_event`
crate and is kept abstract (a parameter).  Returns the trace of send
attempts and warnings. -/
def udp_sender (encode : Event → List Nat) (sock : UdpSock) :
    List ((Event × Nat) × Except String Nat) → List SendAction
  | [] => []
  | ((e, addr), r) :: rest =>
      SendAction.attempt sock.id (encode e) addr ::
      (match r with
       | .ok _ => []
       | .error err => [SendAction.logWarn ("udp send failed: " ++ err)]) ++
      udp_sender encode sock rest

/-- Number of `try_send_to` attempts in a send-loop trace. -/
def countAttempts : List SendAction → Nat
  | [] => 0
  | .attempt _ _ _ :: rest => countAttempts rest + 1
  | .logWarn _ :: rest => countAttempts rest

/-! ## Portal session negotiation (`libei.rs`, `get_ei_fd`) -/

/-- `ashpd::desktop::ResponseError` as distinguished by `get_ei_fd`. -/
inductive ResponseErr where
  | cancelled
  | otherResp (code : Nat)
  deriving DecidableEq, Repr

/-- `ashpd::Error` as distinguished by `get_ei_fd`: a portal response
error, or any other (transport/zbus) error. -/
inductive AshpdError where
  | response (e : ResponseErr)
  | otherErr (code : Nat)
  deriving DecidableEq, Repr

/-- `Except` viewed as a sum, to derive decidable equality. -/
def exceptToSum {ε α : Type} : Except ε α → ε ⊕ α
  | .error e => .inl e
  | .ok a => .inr a

instance {ε α : Type} [DecidableEq ε] [DecidableEq α] :
    DecidableEq (Except ε α) := fun a b =>
  decidable_of_iff (exceptToSum a = exceptToSum b)
    (by cases a <;> cases b <;> simp [exceptToSum])

/-- Oracle for one iteration of the `get_ei_fd` retry loop: the outcomes
of `create_session().await`, `select_devices(..).await` and
`start(..).await` / `.response()`.  The `start` field's outer `Except` is
the `.await?` (transport) outcome; its payload is the `.response()`
result. -/
structure PortalAttempt where
  create : Except AshpdError Nat
  select : Except AshpdError Unit
  start : Except AshpdError (Except AshpdError Nat)
  deriving DecidableEq, Repr

/-- The retry loop of `get_ei_fd` (`libei.rs` lines 75–97) run against a
finite oracle of per-iteration portal outcomes.  Returns `none` when the
oracle is exhausted (the real loop would still be suspended on the portal),
`some (.error e)` when a fatal error is propagated by `?`, and
`some (.ok session)` for the `break` with the session of the successful
iteration. -/
def get_ei_fd_loop : List PortalAttempt → Option (Except AshpdError Nat)
  | [] => none
  | a :: rest =>
      match a.create with
      | .error e => some (.error e)
      | .ok session =>
          match a.select with
          | .error e => some (.error e)
          | .ok _ =>
              match a.start with
              | .error e => some (.error e)
              | .ok resp =>
                  match resp with
                  | .ok _ => some (.ok session)
                  | .error (.response .cancelled) => get_ei_fd_loop rest
                  | .error e => some (.error e)

/-- `get_ei_fd` itself: run the retry loop, then exchange the session for
a descriptor via `connect_to_eis` (modelled by the `connect` oracle). -/
def get_ei_fd (connect : Nat → Except AshpdError Nat)
    (attempts : List PortalAttempt) : Option (Except AshpdError Nat) :=
  match get_ei_fd_loop attempts with
  | none => none
  | some (.error e) => some (.error e)
  | some (.ok session) => some (connect session)

/-- A portal iteration in which session creation and device selection
succeed and the start request comes back with the `Cancelled` response. -/
def cancelledAttempt (session : Nat) : PortalAttempt :=
  ⟨.ok session, .ok (), .ok (.error (.response .cancelled))⟩

/-! ## Device capability registry (`libei.rs`, `Devices`) -/

/-- The four input capabilities tracked by the registry. -/
inductive Capability where
  | pointerCap
  | scrollCap
  | buttonCap
  | keyboardCap
  deriving DecidableEq, Repr

/-- The `Devices` registry: per capability, at most one
`(device handle, interface handle)` binding (handles modelled as `Nat`
identity tags). -/
structure Devices where
  pointer : Option (Nat × Nat)
  scroll : Option (Nat × Nat)
  button : Option (Nat × Nat)
  keyboard : Option (Nat × Nat)
  deriving DecidableEq, Repr

/-- `Devices::default()` — every slot unbound. -/
def Devices.empty : Devices := ⟨none, none, none, none⟩

/-- Registry lookup of one capability slot (the `.read().unwrap()` +
`as_ref()` access in `consume`): total, returns `none` for an unbound
capability. -/
def Devices.lookup (d : Devices) : Capability → Option (Nat × Nat)
  | .pointerCap => d.pointer
  | .scrollCap => d.scroll
  | .buttonCap => d.button
  | .keyboardCap => d.keyboard

/-! ## Event translator (`libei.rs`, `LibeiEmulation::consume`) -/

/-- `ei::button::ButtonState`. -/
inductive ButtonState where
  | released
  | press
  deriving DecidableEq, Repr

/-- `ei::keyboard::KeyState`. -/
inductive KeyState where
  | released
  | press
  deriving DecidableEq, Repr

/-- `EmulationError` as produced by `consume`: the trailing
`context.flush()` failed. -/
inductive EmulationError where
  | flushFailed
  deriving DecidableEq, Repr

/-- An observable protocol call issued while handling one event: the
interface-level device calls and the `device.frame(serial, time)` commit.
Each call records the handle of the interface or device it is issued on. -/
inductive DeviceCall where
  | motionRelative (ifc : Nat) (x y : Int)
  | buttonCall (ifc : Nat) (button : Nat) (state : ButtonState)
  | scroll (ifc : Nat) (horizontal vertical : Int)
  | scrollDiscrete (ifc : Nat) (horizontal vertical : Int)
  | keyCall (ifc : Nat) (key : Nat) (state : KeyState)
  | frame (device : Nat) (serial : Nat) (time : Nat)
  deriving DecidableEq, Repr

/-- Whether a call is a `frame` commit. -/
def DeviceCall.isFrame : DeviceCall → Bool
  | .frame _ _ _ => true
  | _ => false

/-- The state of a `LibeiEmulation` instance visible to `consume`: the
device registry and the `serial` atomic. -/
structure EmulationState where
  devices : Devices
  serial : Nat
  deriving DecidableEq, Repr

/-- `LibeiEmulation::consume` (`libei.rs` lines 141–232).  `now` is the
timestamp sampled once at the top of the call
(`SystemTime::now()...as_micros() as u64`); `flushOk` is the oracle
outcome of the trailing `context.flush()`.  Returns the instance state
after the call, the trace of device calls issued, and the call's result. -/
def consume (st : EmulationState) (event : Event) (now : Nat)
    (flushOk : Bool) :
    EmulationState × List DeviceCall × Except EmulationError Unit :=
  let calls : List DeviceCall :=
    match event with
    | .pointer p =>
        match p with
        | .motion _ rx ry =>
            match st.devices.pointer with
            | some (d, pi) =>
                [.motionRelative pi (asF32 rx) (asF32 ry),
                 .frame d st.serial now]
            | none => []
        | .buttonEv _ btn state =>
            match st.devices.button with
            | some (d, b) =>
                [.buttonCall b btn
                   (if state = 0 then .released else .press),
                 .frame d st.serial now]
            | none => []
        | .axis _ ax value =>
            match st.devices.scroll with
            | some (d, s) =>
                [(if ax = 0 then DeviceCall.scroll s 0 (asF32 value)
                  else DeviceCall.scroll s (asF32 value) 0),
                 .frame d st.serial now]
            | none => []
        | .axisDiscrete120 ax value =>
            match st.devices.scroll with
            | some (d, s) =>
                [(if ax = 0 then DeviceCall.scrollDiscrete s 0 value
                  else DeviceCall.scrollDiscrete s value 0),
                 .frame d st.serial now]
            | none => []
        | .frameEv => []
    | .keyboard k =>
        match k with
        | .keyEv _ kc state =>
            match st.devices.keyboard with
            | some (d, ki) =>
                [.keyCall ki kc
                   (if state = 0 then .released else .press),
                 .frame d st.serial now]
            | none => []
        | .modifiers _ _ _ _ => []
    | .other => []
  (st, calls, if flushOk then .ok () else .error .flushFailed)

/-- The capability an event is routed to by the match in `consume`:
`none` for the variants whose arm touches no device
(`Frame`, `Modifiers`, and the `_` arm). -/
def targetCapability : Event → Option Capability
  | .pointer (.motion _ _ _) => some .pointerCap
  | .pointer (.buttonEv _ _ _) => some .buttonCap
  | .pointer (.axis _ _ _) => some .scrollCap
  | .pointer (.axisDiscrete120 _ _) => some .scrollCap
  | .pointer .frameEv => none
  | .keyboard (.keyEv _ _ _) => some .keyboardCap
  | .keyboard (.modifiers _ _ _ _) => none
  | .other => none

/-! ## Protocol event loop (`libei.rs`, `ei_event_handler`) -/

/-- The interfaces a newly added device implements
(`e.device().interface::<T>()` results), plus the device handle. -/
structure DeviceInfo where
  device : Nat
  pointer : Option Nat
  keyboard : Option Nat
  scroll : Option Nat
  button : Option Nat
  deriving DecidableEq, Repr

/-- The interface handle `info` offers for capability `c`. -/
def DeviceInfo.ifc (info : DeviceInfo) : Capability → Option Nat
  | .pointerCap => info.pointer
  | .scrollCap => info.scroll
  | .buttonCap => info.button
  | .keyboardCap => info.keyboard

/-- The `EiEvent` notifications handled by `ei_event_handler`. -/
inductive EiEvent where
  | disconnected
  | seatAdded (seat : Nat)
  | seatRemoved (seat : Nat)
  | deviceAdded (info : DeviceInfo)
  | deviceRemoved (device : Nat)
  | devicePaused (device : Nat)
  | deviceResumed (device : Nat)
  | keyboardModifiers
  deriving DecidableEq, Repr

/-- Side effect of one `ei_event_handler` iteration other than registry
mutation. -/
inductive HandlerAction where
  | bindCapabilities (seat : Nat)
  | startEmulating (device : Nat) (a b : Nat)
  | logOnly
  | stop
  deriving DecidableEq, Repr

/-- The `DeviceAdded` arm (`libei.rs` lines 269–302): each implemented
interface replaces the corresponding registry slot, in source order
(pointer, keyboard, scroll, button). -/
def applyDeviceAdded (devices : Devices) (info : DeviceInfo) : Devices :=
  let devices :=
    match info.pointer with
    | some p => { devices with pointer := some (info.device, p) }
    | none => devices
  let devices :=
    match info.keyboard with
    | some k => { devices with keyboard := some (info.device, k) }
    | none => devices
  let devices :=
    match info.scroll with
    | some s => { devices with scroll := some (info.device, s) }
    | none => devices
  match info.button with
  | some b => { devices with button := some (info.device, b) }
  | none => devices

/-- One iteration of the `ei_event_handler` match (`libei.rs` lines
258–332): the registry after the event and the other side effect. -/
def handleEiEvent (devices : Devices) :
    EiEvent → Devices × HandlerAction
  | .disconnected => (devices, .stop)
  | .seatAdded s => (devices, .bindCapabilities s)
  | .seatRemoved _ => (devices, .logOnly)
  | .deviceAdded info => (applyDeviceAdded devices info, .logOnly)
  | .deviceRemoved _ => (devices, .logOnly)
  | .devicePaused _ => (devices, .logOnly)
  | .deviceResumed d => (devices, .startEmulating d 0 0)
  | .keyboardModifiers => (devices, .logOnly)

/-! ## Whole-instance runs (`LibeiEmulation::new` + interleavings) -/

/-- The handshake result consumed by `LibeiEmulation::new`. -/
structure Handshake where
  serial : Nat
  deriving DecidableEq, Repr

/-- The instance state built by `LibeiEmulation::new`: default registry,
`serial` seeded from the handshake (`AtomicU32::new(handshake.serial)`). -/
def EmulationState.init (h : Handshake) : EmulationState :=
  { devices := Devices.empty, serial := h.serial }

/-- One scheduled step of an emulation instance: a `consume` call (with
its sampled timestamp and flush outcome) or one `ei_event_handler`
iteration mutating the shared registry. -/
inductive EmuStep where
  | consumeStep (event : Event) (now : Nat) (flushOk : Bool)
  | eiStep (event : EiEvent)

/-- Run a sequence of interleaved steps from a state, collecting every
device call issued by the `consume` steps. -/
def runSteps (st : EmulationState) :
    List EmuStep → EmulationState × List DeviceCall
  | [] => (st, [])
  | .consumeStep e now f :: rest =>
      let r := consume st e now f
      let tail := runSteps r.1 rest
      (tail.1, r.2.1 ++ tail.2)
  | .eiStep ev :: rest =>
      let d := (handleEiEvent st.devices ev).1
      runSteps { st with devices := d } rest

/-! ## Basic facts about `consume` -/

/-- `consume` never mutates the instance state: the registry is only read
and the serial only loaded. -/
theorem consume_fst (st : EmulationState) (e : Event) (now : Nat)
    (flushOk : Bool) : (consume st e now flushOk).1 = st := rfl

/-- The result of `consume` is exactly the outcome of the trailing
`context.flush()`. -/
theorem consume_result (st : EmulationState) (e : Event) (now : Nat)
    (flushOk : Bool) :
    (consume st e now flushOk).2.2 =
      if flushOk then Except.ok () else Except.error EmulationError.flushFailed := rfl

/-! ## Theorems for the claims -/

/-- C8: a rebind request carrying the port the socket is already bound to
performs no rebinding (state, hence socket, unchanged) and emits no
`PortChanged` notification — regardless of what a bind would return. -/
theorem c8_rebind_same_port_noop (st : NetState)
    (bindResult : Except String Nat) :
    handlePortRequest st st.socket.port bindResult = (st, []) := by
  simp [handlePortRequest]

/-- C7 (counterexample basis is not needed — confirmed): every outbound
`(event, addr)` pair popped from the channel produces exactly one
`try_send_to` attempt (never a retry); a failed send only adds a warning
log, the datagram is dropped, and the loop goes on to process the rest of
the channel exactly as it would have. -/
theorem c7_send_once_drop_on_failure :
    (∀ (encode : Event → List Nat) (sock : UdpSock)
       (msgs : List ((Event × Nat) × Except String Nat)),
       countAttempts (udp_sender encode sock msgs) = msgs.length) ∧
    (∀ (encode : Event → List Nat) (sock : UdpSock) (e : Event)
       (addr : Nat) (err : String)
       (rest : List ((Event × Nat) × Except String Nat)),
       udp_sender encode sock (((e, addr), Except.error err) :: rest) =
         SendAction.attempt sock.id (encode e) addr ::
         SendAction.logWarn ("udp send failed: " ++ err) ::
         udp_sender encode sock rest) ∧
    (∀ (encode : Event → List Nat) (sock : UdpSock) (e : Event)
       (addr : Nat) (n : Nat)
       (rest : List ((Event × Nat) × Except String Nat)),
       udp_sender encode sock (((e, addr), Except.ok n) :: rest) =
         SendAction.attempt sock.id (encode e) addr ::
         udp_sender encode sock rest) := by
  refine ⟨?_, ?_, ?_⟩
  · intro encode sock msgs
    induction msgs with
    | nil => rfl
    | cons m rest ih =>
        obtain ⟨⟨e, addr⟩, r⟩ := m
        cases r <;> simp [udp_sender, countAttempts, ih]
  · intro encode sock e addr err rest
    rfl
  · intro encode sock e addr n rest
    rfl

/-- C1 fails as stated: on a failed rebind the notification carries the
*old* (still bound) port, not the requested new one.  With the socket
bound to 4242 and a failing rebind request to 1234, the single emitted
notification carries 4242, and no notification carrying 1234 exists. -/
theorem c1_counterexample :
    (handlePortRequest ⟨⟨4242, 0⟩, 4242⟩ 1234
        (Except.error "address in use")).2 =
      [FrontendEvent.portChanged 4242
        (some ("could not change port: " ++ "address in use"))] ∧
    ¬ ∃ msg, (handlePortRequest ⟨⟨4242, 0⟩, 4242⟩ 1234
        (Except.error "address in use")).2 =
      [FrontendEvent.portChanged 1234 msg] := by
  constructor
  · rfl
  · rintro ⟨msg, hmsg⟩
    simp [handlePortRequest] at hmsg

/-- C1 amended: on a failed rebind to a different port, exactly one
`PortChanged` notification is emitted, carrying the *currently bound old
port* and the error message, and the task state — in particular the
previously bound socket — is unchanged, so it continues serving. -/
theorem c1_rebind_failure_notifies_old_port (st : NetState) (port : Nat)
    (e : String) (hne : st.socket.port ≠ port) :
    handlePortRequest st port (Except.error e) =
      (st, [FrontendEvent.portChanged st.socket.port
              (some ("could not change port: " ++ e))]) := by
  simp [handlePortRequest, hne]

/-- Witness for C1's amended theorem at a concrete failing rebind. -/
theorem c1_witness :
    (⟨⟨4242, 0⟩, 4242⟩ : NetState).socket.port ≠ 1234 ∧
    handlePortRequest ⟨⟨4242, 0⟩, 4242⟩ 1234 (Except.error "busy") =
      (⟨⟨4242, 0⟩, 4242⟩,
       [FrontendEvent.portChanged 4242
          (some ("could not change port: " ++ "busy"))]) :=
  ⟨by decide,
   c1_rebind_failure_notifies_old_port ⟨⟨4242, 0⟩, 4242⟩ 1234 "busy" (by decide)⟩

/-- C6: any run of start-request cancellations (sessions discarded, each
iteration creating a fresh session) is transparently retried past; every
other failure point — session creation, device selection, the start
round-trip, or a non-cancelled start response — is fatal and surfaced
immediately, consuming no further attempts. -/
theorem c6_cancel_retried_other_failures_fatal :
    (∀ (sessions : List Nat) (rest : List PortalAttempt),
       get_ei_fd_loop (sessions.map cancelledAttempt ++ rest) =
         get_ei_fd_loop rest) ∧
    (∀ (e : AshpdError) (sel : Except AshpdError Unit)
       (stt : Except AshpdError (Except AshpdError Nat))
       (rest : List PortalAttempt),
       get_ei_fd_loop (⟨Except.error e, sel, stt⟩ :: rest) =
         some (Except.error e)) ∧
    (∀ (s : Nat) (e : AshpdError)
       (stt : Except AshpdError (Except AshpdError Nat))
       (rest : List PortalAttempt),
       get_ei_fd_loop (⟨Except.ok s, Except.error e, stt⟩ :: rest) =
         some (Except.error e)) ∧
    (∀ (s : Nat) (e : AshpdError) (rest : List PortalAttempt),
       get_ei_fd_loop (⟨Except.ok s, Except.ok (), Except.error e⟩ :: rest) =
         some (Except.error e)) ∧
    (∀ (s : Nat) (e : AshpdError) (rest : List PortalAttempt),
       e ≠ AshpdError.response ResponseErr.cancelled →
       get_ei_fd_loop
           (⟨Except.ok s, Except.ok (), Except.ok (Except.error e)⟩ :: rest) =
         some (Except.error e)) := by
  refine ⟨?_, ?_, ?_, ?_, ?_⟩
  · intro sessions rest
    induction sessions with
    | nil => rfl
    | cons s ss ih => simpa [cancelledAttempt, get_ei_fd_loop] using ih
  · intro e sel stt rest
    rfl
  · intro s e stt rest
    rfl
  · intro s e rest
    rfl
  · intro s e rest hne
    match e with
    | .response .cancelled => exact absurd rfl hne
    | .response (.otherResp c) => rfl
    | .otherErr c => rfl

/-- Witness for C6 at a concrete non-cancelled start-response failure,
preceded by two cancelled attempts that are retried past. -/
theorem c6_witness :
    AshpdError.otherErr 3 ≠ AshpdError.response ResponseErr.cancelled ∧
    get_ei_fd_loop
        [⟨Except.ok 7, Except.ok (),
          Except.ok (Except.error (AshpdError.otherErr 3))⟩] =
      some (Except.error (AshpdError.otherErr 3)) :=
  ⟨by decide,
   c6_cancel_retried_other_failures_fatal.2.2.2.2 7 (AshpdError.otherErr 3) []
     (by decide)⟩

/-- C2 fails as stated only in its "returns success" part: `consume`
ends with `context.flush()?` regardless of capability bindings, so an
unbound-capability event still returns an error when that flush fails.
Concretely: a `Motion` event against an empty registry makes no device
call, yet with a failing flush the call does not return success. -/
theorem c2_counterexample :
    targetCapability (Event.pointer (PointerEvent.motion 0 1 2)) =
      some Capability.pointerCap ∧
    Devices.empty.lookup Capability.pointerCap = none ∧
    (consume ⟨Devices.empty, 5⟩ (Event.pointer (PointerEvent.motion 0 1 2))
        0 false).2.1 = [] ∧
    (consume ⟨Devices.empty, 5⟩ (Event.pointer (PointerEvent.motion 0 1 2))
        0 false).2.2 ≠ Except.ok () := by
  refine ⟨rfl, rfl, rfl, ?_⟩
  simp [consume_result]

/-- C2 amended: an event whose target capability is unbound makes no
device call, leaves the instance state untouched, and the call's result is
exactly the outcome of the trailing connection flush — success whenever
that flush succeeds. -/
theorem c2_unbound_capability_event_dropped (st : EmulationState)
    (e : Event) (now : Nat) (flushOk : Bool) (c : Capability)
    (hc : targetCapability e = some c)
    (hb : st.devices.lookup c = none) :
    consume st e now flushOk =
      (st, [],
       if flushOk then Except.ok () else Except.error EmulationError.flushFailed) := by
  cases e with
  | pointer p =>
      cases p <;>
        first
        | (simp [targetCapability] at hc
           subst hc
           simp [Devices.lookup] at hb
           simp [consume, hb])
        | simp [consume, targetCapability]
  | keyboard k =>
      cases k <;>
        first
        | (simp [targetCapability] at hc
           subst hc
           simp [Devices.lookup] at hb
           simp [consume, hb])
        | simp [consume, targetCapability]
  | other => simp [consume]

/-- Witness for C2's amended theorem: a `Motion` event against an empty
registry with a succeeding flush. -/
theorem c2_witness :
    consume ⟨Devices.empty, 5⟩ (Event.pointer (PointerEvent.motion 0 1 2))
        3 true =
      (⟨Devices.empty, 5⟩, [], Except.ok ()) :=
  c2_unbound_capability_event_dropped ⟨Devices.empty, 5⟩
    (Event.pointer (PointerEvent.motion 0 1 2)) 3 true
    Capability.pointerCap rfl rfl

/-- C3: for an event whose target capability is bound, the calls issued by
`consume` are some device calls followed by exactly one `frame` commit —
the frame is last, no other call is a frame — and that frame is stamped
with the instance's current serial and the timestamp `now` sampled once at
the top of the call. -/
theorem c3_one_frame_commit_per_event (st : EmulationState) (e : Event)
    (now : Nat) (flushOk : Bool) (c : Capability) (d h : Nat)
    (hc : targetCapability e = some c)
    (hb : st.devices.lookup c = some (d, h)) :
    ∃ pre, (consume st e now flushOk).2.1 =
        pre ++ [DeviceCall.frame d st.serial now] ∧
      ∀ call ∈ pre, call.isFrame = false := by
  cases e with
  | pointer p =>
      cases p with
      | motion t rx ry =>
          refine ⟨[DeviceCall.motionRelative h (asF32 rx) (asF32 ry)], ?_, ?_⟩
          · simp [targetCapability] at hc
            subst hc
            simp [Devices.lookup] at hb
            simp [consume, hb]
          · intro call hcall
            simp at hcall
            subst hcall
            rfl
      | buttonEv t btn state =>
          refine ⟨[DeviceCall.buttonCall h btn
                    (if state = 0 then .released else .press)], ?_, ?_⟩
          · simp [targetCapability] at hc
            subst hc
            simp [Devices.lookup] at hb
            simp [consume, hb]
          · intro call hcall
            simp at hcall
            subst hcall
            split <;> rfl
      | axis t ax v =>
          refine ⟨[if ax = 0 then DeviceCall.scroll h 0 (asF32 v)
                   else DeviceCall.scroll h (asF32 v) 0], ?_, ?_⟩
          · simp [targetCapability] at hc
            subst hc
            simp [Devices.lookup] at hb
            simp [consume, hb]
          · intro call hcall
            simp at hcall
            subst hcall
            split <;> rfl
      | axisDiscrete120 ax v =>
          refine ⟨[if ax = 0 then DeviceCall.scrollDiscrete h 0 v
                   else DeviceCall.scrollDiscrete h v 0], ?_, ?_⟩
          · simp [targetCapability] at hc
            subst hc
            simp [Devices.lookup] at hb
            simp [consume, hb]
          · intro call hcall
            simp at hcall
            subst hcall
            split <;> rfl
      | frameEv => simp [targetCapability] at hc
  | keyboard k =>
      cases k with
      | keyEv t kc state =>
          refine ⟨[DeviceCall.keyCall h kc
                    (if state = 0 then .released else .press)], ?_, ?_⟩
          · simp [targetCapability] at hc
            subst hc
            simp [Devices.lookup] at hb
            simp [consume, hb]
          · intro call hcall
            simp at hcall
            subst hcall
            split <;> rfl
      | modifiers a b cc dd => simp [targetCapability] at hc
  | other => simp [targetCapability] at hc

/-- Witness for C3: a `Motion` event against a registry with a bound
pointer device. -/
theorem c3_witness :
    ∃ pre, (consume ⟨⟨some (1, 10), none, none, none⟩, 5⟩
        (Event.pointer (PointerEvent.motion 0 1 2)) 99 true).2.1 =
        pre ++ [DeviceCall.frame 1 5 99] ∧
      ∀ call ∈ pre, call.isFrame = false :=
  c3_one_frame_commit_per_event ⟨⟨some (1, 10), none, none, none⟩, 5⟩
    (Event.pointer (PointerEvent.motion 0 1 2)) 99 true
    Capability.pointerCap 1 10 rfl rfl

/-- C4: the registry keeps at most one binding per capability (an `Option`
slot); looking up an unbound capability returns `none`, never an error;
and a second `DeviceAdded` for a device implementing capability `c` leaves
that slot holding exactly the second device's binding, whatever the first
binding and prior registry were. -/
theorem c4_last_bound_wins :
    (∀ c, Devices.empty.lookup c = none) ∧
    (∀ (devs : Devices) (e1 e2 : DeviceInfo) (c : Capability) (h1 h2 : Nat),
       e1.ifc c = some h1 → e2.ifc c = some h2 →
       ((handleEiEvent (handleEiEvent devs (.deviceAdded e1)).1
           (.deviceAdded e2)).1).lookup c = some (e2.device, h2)) := by
  constructor
  · intro c
    cases c <;> rfl
  · intro devs e1 e2 c h1 h2 h1i h2i
    cases c <;>
      simp [DeviceInfo.ifc] at h2i <;>
      simp [handleEiEvent] <;>
      cases hp : e2.pointer <;> cases hk : e2.keyboard <;>
      cases hs : e2.scroll <;> cases hb : e2.button <;>
      simp_all [applyDeviceAdded, Devices.lookup]

/-- Witness for C4: two pointer devices bound in sequence; the slot holds
the second. -/
theorem c4_witness :
    (⟨1, some 10, none, none, none⟩ : DeviceInfo).ifc Capability.pointerCap =
      some 10 ∧
    (⟨2, some 20, none, none, none⟩ : DeviceInfo).ifc Capability.pointerCap =
      some 20 ∧
    ((handleEiEvent
        (handleEiEvent Devices.empty
          (.deviceAdded ⟨1, some 10, none, none, none⟩)).1
        (.deviceAdded ⟨2, some 20, none, none, none⟩)).1).lookup
      Capability.pointerCap = some (2, 20) :=
  ⟨rfl, rfl,
   c4_last_bound_wins.2 Devices.empty ⟨1, some 10, none, none, none⟩
     ⟨2, some 20, none, none, none⟩ Capability.pointerCap 10 20 rfl rfl⟩

/-- C5: with a bound scroll device, `Axis` with axis 0 issues a scroll
call with the delta in the vertical argument and 0 horizontal, axis 1 the
delta in the horizontal argument and 0 vertical, and `AxisDiscrete120`
follows the same convention with the discrete scroll call; each is
followed by the frame commit. -/
theorem c5_axis_scroll_convention (st : EmulationState) (now : Nat)
    (flushOk : Bool) (t : Nat) (v w : Int) (d h : Nat)
    (hb : st.devices.scroll = some (d, h)) :
    (consume st (Event.pointer (PointerEvent.axis t 0 v)) now flushOk).2.1 =
      [DeviceCall.scroll h 0 (asF32 v), DeviceCall.frame d st.serial now] ∧
    (consume st (Event.pointer (PointerEvent.axis t 1 v)) now flushOk).2.1 =
      [DeviceCall.scroll h (asF32 v) 0, DeviceCall.frame d st.serial now] ∧
    (consume st (Event.pointer (PointerEvent.axisDiscrete120 0 w))
        now flushOk).2.1 =
      [DeviceCall.scrollDiscrete h 0 w, DeviceCall.frame d st.serial now] ∧
    (consume st (Event.pointer (PointerEvent.axisDiscrete120 1 w))
        now flushOk).2.1 =
      [DeviceCall.scrollDiscrete h w 0, DeviceCall.frame d st.serial now] := by
  refine ⟨?_, ?_, ?_, ?_⟩ <;> simp [consume, hb]

/-- Witness for C5 at a concrete bound scroll device. -/
theorem c5_witness :
    (consume ⟨⟨none, some (2, 20), none, none⟩, 5⟩
        (Event.pointer (PointerEvent.axis 0 0 7)) 9 true).2.1 =
      [DeviceCall.scroll 20 0 (asF32 7), DeviceCall.frame 2 5 9] ∧
    (consume ⟨⟨none, some (2, 20), none, none⟩, 5⟩
        (Event.pointer (PointerEvent.axis 0 1 7)) 9 true).2.1 =
      [DeviceCall.scroll 20 (asF32 7) 0, DeviceCall.frame 2 5 9] ∧
    (consume ⟨⟨none, some (2, 20), none, none⟩, 5⟩
        (Event.pointer (PointerEvent.axisDiscrete120 0 240)) 9 true).2.1 =
      [DeviceCall.scrollDiscrete 20 0 240, DeviceCall.frame 2 5 9] ∧
    (consume ⟨⟨none, some (2, 20), none, none⟩, 5⟩
        (Event.pointer (PointerEvent.axisDiscrete120 1 240)) 9 true).2.1 =
      [DeviceCall.scrollDiscrete 20 240 0, DeviceCall.frame 2 5 9] :=
  c5_axis_scroll_convention ⟨⟨none, some (2, 20), none, none⟩, 5⟩ 9 true
    0 7 240 2 20 rfl

/-- C9: `DeviceRemoved` and `DevicePaused` notifications leave the whole
registry unchanged — their handler arms only log. -/
theorem c9_removed_paused_log_only (devices : Devices) (d : Nat) :
    handleEiEvent devices (.deviceRemoved d) = (devices, .logOnly) ∧
    handleEiEvent devices (.devicePaused d) = (devices, .logOnly) :=
  ⟨rfl, rfl⟩

/-- Every `frame` commit in the trace of one `consume` call carries the
instance's current serial. -/
theorem consume_frame_serial (st : EmulationState) (e : Event) (now : Nat)
    (flushOk : Bool) (d s t : Nat)
    (hmem : DeviceCall.frame d s t ∈ (consume st e now flushOk).2.1) :
    s = st.serial := by
  cases e with
  | pointer p =>
      cases p with
      | motion tt rx ry =>
          rcases hp : st.devices.pointer with _ | ⟨dd, pi⟩ <;>
            simp_all [consume]
      | buttonEv tt btn state =>
          rcases hp : st.devices.button with _ | ⟨dd, b⟩ <;>
            simp_all [consume]
      | axis tt ax v =>
          rcases hp : st.devices.scroll with _ | ⟨dd, sc⟩
          · simp_all [consume]
          · simp_all [consume]
            split at hmem <;> simp_all
      | axisDiscrete120 ax v =>
          rcases hp : st.devices.scroll with _ | ⟨dd, sc⟩
          · simp_all [consume]
          · simp_all [consume]
            split at hmem <;> simp_all
      | frameEv => simp [consume] at hmem
  | keyboard k =>
      cases k with
      | keyEv tt kc state =>
          rcases hp : st.devices.keyboard with _ | ⟨dd, ki⟩ <;>
            simp_all [consume]
      | modifiers a b cc dd => simp [consume] at hmem
  | other => simp [consume] at hmem

/-- Across any interleaving of `consume` calls and protocol-event-loop
iterations, the serial is never written: the final state carries the start
state's serial and every frame commit in the collected trace is stamped
with it. -/
theorem runSteps_serial (st : EmulationState) (steps : List EmuStep) :
    (runSteps st steps).1.serial = st.serial ∧
    ∀ d s t, DeviceCall.frame d s t ∈ (runSteps st steps).2 →
      s = st.serial := by
  induction steps generalizing st with
  | nil => exact ⟨rfl, by simp [runSteps]⟩
  | cons step rest ih =>
      cases step with
      | consumeStep e now f =>
          constructor
          · simpa [runSteps, consume_fst] using (ih st).1
          · intro d s t hmem
            simp [runSteps, consume_fst] at hmem
            rcases hmem with hm | hm
            · exact consume_frame_serial st e now f d s t hm
            · exact (ih st).2 d s t hm
      | eiStep ev =>
          have h := ih { st with devices := (handleEiEvent st.devices ev).1 }
          exact ⟨h.1, h.2⟩

/-- C10: the serial is seeded once from the handshake by
`LibeiEmulation::new` and never modified afterward — after any interleaved
sequence of `consume` calls and protocol-event-loop iterations starting
from the freshly constructed instance, the serial still equals the
handshake serial and every frame commit ever issued carries it. -/
theorem c10_serial_seeded_once_never_modified (h : Handshake)
    (steps : List EmuStep) :
    (EmulationState.init h).serial = h.serial ∧
    (runSteps (EmulationState.init h) steps).1.serial = h.serial ∧
    ∀ d s t, DeviceCall.frame d s t ∈
        (runSteps (EmulationState.init h) steps).2 → s = h.serial := by
  refine ⟨rfl, (runSteps_serial _ _).1, ?_⟩
  intro d s t hm
  exact (runSteps_serial _ _).2 d s t hm

/-- Witness for C10: bind a pointer device via a `DeviceAdded` iteration,
then consume one `Motion` event; the single frame in the trace carries the
handshake serial 5. -/
theorem c10_witness :
    DeviceCall.frame 1 5 9 ∈
      (runSteps (EmulationState.init ⟨5⟩)
        [.eiStep (.deviceAdded ⟨1, some 10, none, none, none⟩),
         .consumeStep (Event.pointer (PointerEvent.motion 0 1 2)) 9 true]).2 ∧
    (5 : Nat) = 5 :=
  ⟨by decide,
   (c10_serial_seeded_once_never_modified ⟨5⟩
      [.eiStep (.deviceAdded ⟨1, some 10, none, none, none⟩),
       .consumeStep (Event.pointer (PointerEvent.motion 0 1 2)) 9 true]).2.2
     1 5 9 (by decide)⟩

end LanMouse
